import Mathlib

/-!
Shallow embedding of the LMS credential scripts.

The repository consists of:
* `authenction.py` — a streamlit app with a login handler and a register handler
  against a mongo collection of `{username, password}` documents, hashing with
  argon2 (`ph.hash`, `ph.verify`);
* `argon.py` — a CLI login script using argon2, calling `collection.find_one`
  twice and with no `except` clause;
* `auth.py` — a CLI login script using bcrypt (`checkpw`), same structure;
* `test.py` — a script hashing the same plaintext twice and printing whether
  the two hashes are equal.

The mongo collection is embedded as a list of records; `find_one` returns the
first record whose username matches.  The two hashing libraries are external
collaborators; they are embedded per the interface the spec gives for them
(`hash(plaintext, params) -> blob`, `verify(blob, plaintext) -> bool | raises`):
a blob is self-describing (scheme and salt), produced from a plaintext and a
fresh salt drawn from the RNG (the salt is an explicit parameter here), and a
verification routine returns `some b` for a parseable blob of its own scheme
and `none` (modelling a raised exception) on any other stored value.
-/

namespace LMS

/-- A value stored in the `password` field of a document.  `argon2`/`bcrypt`
blobs record the scheme, the plaintext they authenticate and the salt drawn at
hashing time; `plain` is any other string (for instance a raw plaintext). -/
inductive StoredValue where
  | argon2 (plaintext : String) (salt : Nat)
  | bcrypt (plaintext : String) (salt : Nat)
  | plain (s : String)
deriving DecidableEq, Repr

/-- A document of the `users` collection. -/
structure Record where
  username : String
  password : StoredValue
deriving DecidableEq, Repr

/-- Embedding of `collection.find_one({"username": u})`: first matching document. -/
def find_one (store : List Record) (u : String) : Option Record :=
  store.find? (fun r => r.username == u)

/-- Embedding of `ph.hash(plaintext)` with the freshly drawn salt explicit. -/
def ph_hash (plaintext : String) (salt : Nat) : StoredValue :=
  StoredValue.argon2 plaintext salt

/-- Embedding of `ph.verify(stored, plaintext)`: `some b` when the stored value
is an argon2 blob (`b` = match), `none` (an exception) otherwise. -/
def ph_verify (stored : StoredValue) (plaintext : String) : Option Bool :=
  match stored with
  | StoredValue.argon2 p _ => some (plaintext == p)
  | _ => none

/-- Embedding of `bcrypt.checkpw(plaintext, stored)`: `some b` when the stored
value is a bcrypt blob, `none` (an exception) otherwise. -/
def checkpw (plaintext : String) (stored : StoredValue) : Option Bool :=
  match stored with
  | StoredValue.bcrypt p _ => some (plaintext == p)
  | _ => none

/-- A streamlit message: `st.success` / `st.error` / `st.warning`. -/
inductive Msg where
  | success (s : String)
  | error (s : String)
  | warning (s : String)
deriving DecidableEq, Repr

/-- Embedding of the login button handler of `authenction.py` (lines 29-40):
one lookup; on a hit, `ph.verify` inside `try`, the bare `except` reporting
"Invalid password hash!"; on a miss, the not-found warning. -/
def login_button_handler (store : List Record) (user_name password : String) : Msg :=
  match find_one store user_name with
  | some user =>
    match ph_verify user.password password with
    | some true  => Msg.success "Login successful"
    | some false => Msg.error "Incorrect password"
    | none       => Msg.error "Invalid password hash!"
  | none => Msg.warning "User not found. You can register below."

/-- Embedding of the register button handler of `authenction.py` (lines 51-63).
The source has a free-standing `if new_user == "":` that only emits a warning;
the `else:` that guards the store access belongs to the `if new_pass == "":`
check alone, so an empty username with a non-empty password falls through to
the lookup-and-insert branch.  Returns the emitted messages and the new store. -/
def register_button_handler (store : List Record) (new_user new_pass : String)
    (salt : Nat) : List Msg × List Record :=
  let msgs := if new_user == "" then [Msg.warning "Please enter a username."] else []
  if new_pass == "" then
    (msgs ++ [Msg.warning "Please enter a password."], store)
  else
    match find_one store new_user with
    | some _ => (msgs ++ [Msg.error "Username already exists!"], store)
    | none =>
      (msgs ++ [Msg.success "Registration successful"],
        store ++ [{ username := new_user, password := ph_hash new_pass salt }])

/-- A store instrumented with lookup and write counters, to state frame
conditions on the CLI scripts. -/
structure TracedStore where
  recs : List Record
  lookups : Nat
  writes : Nat
deriving DecidableEq, Repr

/-- One `collection.find_one` call against a traced store. -/
def ts_find_one (s : TracedStore) (u : String) : Option Record × TracedStore :=
  (find_one s.recs u, { s with lookups := s.lookups + 1 })

/-- Embedding of the `argon.py` login script (lines 17-22): `find_one` in the
`if` condition, `find_one(...)['password']` again on a hit, then `ph.verify`
with no `except` clause, so a verification exception escapes (`Except.error`);
nothing is printed when the username is absent.  Returns the printed lines (or
the escaped exception) and the final traced store. -/
def argon_login_run (s : TracedStore) (user_name password : String) :
    Except String (List String) × TracedStore :=
  let r1 := ts_find_one s user_name
  match r1.1 with
  | some _ =>
    let r2 := ts_find_one r1.2 user_name
    match r2.1 with
    | some user =>
      match ph_verify user.password password with
      | some true  => (Except.ok ["Login successful"], r2.2)
      | some false => (Except.ok ["Incorrect password"], r2.2)
      | none       => (Except.error "InvalidHashError", r2.2)
    | none => (Except.error "TypeError", r2.2)
  | none => (Except.ok [], r1.2)

/-- Embedding of the `auth.py` login script (lines 13-18): same shape as
`argon.py` but verifying with `bcrypt.checkpw`, again with no `except`. -/
def auth_login_run (s : TracedStore) (user_name password : String) :
    Except String (List String) × TracedStore :=
  let r1 := ts_find_one s user_name
  match r1.1 with
  | some _ =>
    let r2 := ts_find_one r1.2 user_name
    match r2.1 with
    | some user =>
      match checkpw password user.password with
      | some true  => (Except.ok ["Login successful"], r2.2)
      | some false => (Except.ok ["Incorrect password"], r2.2)
      | none       => (Except.error "ValueError", r2.2)
    | none => (Except.error "TypeError", r2.2)
  | none => (Except.ok [], r1.2)

/-- Embedding of `test.py`: hash "123456" twice with independent salts and
report whether the two blobs are equal. -/
def test_script (salt1 salt2 : Nat) : Bool :=
  ph_hash "123456" salt1 == ph_hash "123456" salt2

/-- Appending a record for a username absent from the store makes it the one
`find_one` returns. -/
theorem find_one_append_none {store : List Record} {u : String} (r : Record)
    (h : find_one store u = none) (hr : r.username = u) :
    find_one (store ++ [r]) u = some r := by
  induction store with
  | nil => simp [find_one, List.find?, hr]
  | cons a as ih =>
    unfold find_one at h ⊢
    rcases hb : (a.username == u) with _ | _
    · simp only [List.cons_append, List.find?_cons, hb] at h ⊢
      exact ih h
    · simp only [List.find?_cons, hb] at h
      exact Option.noConfusion h

/-- Unfolding of the register handler on a non-empty password when the
username is already present: only the exists error (plus the empty-username
warning when applicable), store untouched. -/
theorem register_button_handler_of_found {store : List Record} {u : String}
    (p : String) (s : Nat) (r : Record) (hp : (p == "") = false)
    (hf : find_one store u = some r) :
    register_button_handler store u p s =
      ((if u == "" then [Msg.warning "Please enter a username."] else []) ++
        [Msg.error "Username already exists!"], store) := by
  unfold register_button_handler
  simp only [hp, Bool.false_eq_true, if_false, hf]

/-- Unfolding of the register handler on a non-empty password when the
username is absent: success message (plus the empty-username warning when
applicable) and the hashed record appended. -/
theorem register_button_handler_of_fresh {store : List Record} {u : String}
    (p : String) (s : Nat) (hp : (p == "") = false)
    (hf : find_one store u = none) :
    register_button_handler store u p s =
      ((if u == "" then [Msg.warning "Please enter a username."] else []) ++
        [Msg.success "Registration successful"],
        store ++ [{ username := u, password := ph_hash p s }]) := by
  unfold register_button_handler
  simp only [hp, Bool.false_eq_true, if_false, hf]

/-- Claim C1: registering a fresh non-empty username with a non-empty password
and then logging in with the same plaintext yields "Login successful". -/
theorem register_then_login_succeeds (store : List Record) (u p : String)
    (salt : Nat) (_hu : u ≠ "") (hp : p ≠ "") (habs : find_one store u = none) :
    login_button_handler (register_button_handler store u p salt).2 u p =
      Msg.success "Login successful" := by
  have hp2 : (p == "") = false := by simpa using hp
  unfold register_button_handler
  simp only [hp2, Bool.false_eq_true, if_false, habs]
  unfold login_button_handler
  rw [find_one_append_none { username := u, password := ph_hash p salt } habs rfl]
  simp [ph_verify, ph_hash]

/-- Witness for C1 at a concrete input. -/
theorem register_then_login_succeeds_witness :
    login_button_handler (register_button_handler [] "alice" "pw" 0).2 "alice" "pw" =
      Msg.success "Login successful" :=
  register_then_login_succeeds [] "alice" "pw" 0 (by decide) (by decide) rfl

/-- Claim C2 (code bug exhibit): submitting an empty username with a non-empty
password warns about the missing username yet still looks up and inserts a
record with empty username, because the `else:` guarding the store access in
the source belongs only to the empty-password check. -/
theorem register_empty_username_still_inserts :
    register_button_handler [] "" "p" 0 =
      ([Msg.warning "Please enter a username.", Msg.success "Registration successful"],
        [{ username := "", password := StoredValue.argon2 "p" 0 }]) := rfl

/-- Claim C3: when a record is stored under username `u` with the argon2 hash
of `p` and the supplied password differs from `p`, the login handler of
`authenction.py` reports "Incorrect password" (the Rejected outcome). -/
theorem login_wrong_password_rejected (store : List Record) (u p p2 : String)
    (s : Nat) (r : Record) (hfound : find_one store u = some r)
    (hpw : r.password = ph_hash p s) (hne : p2 ≠ p) :
    login_button_handler store u p2 = Msg.error "Incorrect password" := by
  have h2 : (p2 == p) = false := by simpa using hne
  unfold login_button_handler
  rw [hfound]
  simp [hpw, ph_verify, ph_hash, h2]

/-- Witness for C3 at a concrete input. -/
theorem login_wrong_password_rejected_witness :
    login_button_handler [{ username := "a", password := ph_hash "pw" 0 }] "a" "x" =
      Msg.error "Incorrect password" :=
  login_wrong_password_rejected [{ username := "a", password := ph_hash "pw" 0 }]
    "a" "pw" "x" 0 { username := "a", password := ph_hash "pw" 0 } rfl rfl (by decide)

/-- Claim C4 counterexample: the `argon.py` login script prints nothing at all
for a username absent from the store, so the claim that every verify path
reports "not found" fails on it. -/
theorem argon_unknown_user_silent :
    find_one ([] : List Record) "alice" = none ∧
    (argon_login_run { recs := [], lookups := 0, writes := 0 } "alice" "pw").1 =
      Except.ok [] :=
  ⟨rfl, rfl⟩

/-- Claim C4 (amended): an unknown username makes the streamlit login handler
emit the not-found warning inviting registration, while the CLI login scripts
of `argon.py` and `auth.py` print nothing. -/
theorem unknown_user_reported (store : List Record) (u p : String)
    (h : find_one store u = none) :
    login_button_handler store u p = Msg.warning "User not found. You can register below." ∧
    (argon_login_run { recs := store, lookups := 0, writes := 0 } u p).1 = Except.ok [] ∧
    (auth_login_run { recs := store, lookups := 0, writes := 0 } u p).1 = Except.ok [] := by
  refine ⟨?_, ?_, ?_⟩
  · unfold login_button_handler
    rw [h]
  · unfold argon_login_run ts_find_one
    simp [h]
  · unfold auth_login_run ts_find_one
    simp [h]

/-- Witness for the amended C4 at a concrete input. -/
theorem unknown_user_reported_witness :
    login_button_handler [] "alice" "pw" =
        Msg.warning "User not found. You can register below." ∧
    (argon_login_run { recs := [], lookups := 0, writes := 0 } "alice" "pw").1 =
        Except.ok [] ∧
    (auth_login_run { recs := [], lookups := 0, writes := 0 } "alice" "pw").1 =
        Except.ok [] :=
  unknown_user_reported [] "alice" "pw" rfl

/-- Claim C6: registering the same non-empty username twice yields only
"Username already exists!" on the second call, leaves the store unchanged, and
the record stored by the first call, hash included, is still what `find_one`
returns. -/
theorem register_twice_already_exists (store : List Record) (u p : String)
    (s1 s2 : Nat) (hu : u ≠ "") (hp : p ≠ "") (habs : find_one store u = none) :
    (register_button_handler (register_button_handler store u p s1).2 u p s2).1 =
        [Msg.error "Username already exists!"] ∧
    (register_button_handler (register_button_handler store u p s1).2 u p s2).2 =
        (register_button_handler store u p s1).2 ∧
    find_one (register_button_handler store u p s1).2 u =
        some { username := u, password := ph_hash p s1 } := by
  have hu2 : (u == "") = false := by simpa using hu
  have hp2 : (p == "") = false := by simpa using hp
  have hfind : find_one (register_button_handler store u p s1).2 u =
      some { username := u, password := ph_hash p s1 } := by
    rw [register_button_handler_of_fresh p s1 hp2 habs]
    exact find_one_append_none _ habs rfl
  have hsecond := register_button_handler_of_found p s2
    { username := u, password := ph_hash p s1 } hp2 hfind
  refine ⟨?_, ?_, hfind⟩
  · rw [hsecond]
    simp [hu2]
  · rw [hsecond]

/-- Witness for C6 at a concrete input. -/
theorem register_twice_already_exists_witness :
    (register_button_handler (register_button_handler [] "alice" "pw" 0).2
        "alice" "pw" 1).1 = [Msg.error "Username already exists!"] ∧
    (register_button_handler (register_button_handler [] "alice" "pw" 0).2
        "alice" "pw" 1).2 = (register_button_handler [] "alice" "pw" 0).2 ∧
    find_one (register_button_handler [] "alice" "pw" 0).2 "alice" =
        some { username := "alice", password := ph_hash "pw" 0 } :=
  register_twice_already_exists [] "alice" "pw" 0 1 (by decide) (by decide) rfl

/-- Claim C7: hashing the same plaintext with two independently drawn (hence
distinct) salts produces two different blobs, each of which verifies against
the plaintext; accordingly the `test.py` comparison prints `False`. -/
theorem hash_salted_and_verifies (p : String) (s1 s2 : Nat) (hne : s1 ≠ s2) :
    ph_hash p s1 ≠ ph_hash p s2 ∧
    ph_verify (ph_hash p s1) p = some true ∧
    ph_verify (ph_hash p s2) p = some true ∧
    test_script s1 s2 = false := by
  refine ⟨?_, ?_, ?_, ?_⟩
  · simp [ph_hash, hne]
  · simp [ph_verify, ph_hash]
  · simp [ph_verify, ph_hash]
  · simp [test_script, ph_hash, hne]

/-- Witness for C7 at a concrete input. -/
theorem hash_salted_and_verifies_witness :
    ph_hash "123456" 0 ≠ ph_hash "123456" 1 ∧
    ph_verify (ph_hash "123456" 0) "123456" = some true ∧
    ph_verify (ph_hash "123456" 1) "123456" = some true ∧
    test_script 0 1 = false :=
  hash_salted_and_verifies "123456" 0 1 (by decide)

/-- Claim C8: a blob of one hashing scheme never authenticates under the other
scheme: the argon2 verifier raises on a bcrypt blob and `checkpw` raises on an
argon2 blob, so a record registered through the argon2 path never logs in
through the bcrypt script of `auth.py`, and conversely a bcrypt record never
logs in through the argon2 script of `argon.py`. -/
theorem cross_scheme_never_authenticates (u p q : String) (s : Nat)
    (rest : List Record) :
    ph_verify (StoredValue.bcrypt p s) q ≠ some true ∧
    checkpw q (StoredValue.argon2 p s) ≠ some true ∧
    (auth_login_run
        { recs := { username := u, password := StoredValue.argon2 p s } :: rest,
          lookups := 0, writes := 0 } u q).1 ≠ Except.ok ["Login successful"] ∧
    (argon_login_run
        { recs := { username := u, password := StoredValue.bcrypt p s } :: rest,
          lookups := 0, writes := 0 } u q).1 ≠ Except.ok ["Login successful"] := by
  have hfa : find_one ({ username := u, password := StoredValue.argon2 p s } :: rest) u =
      some { username := u, password := StoredValue.argon2 p s } := by
    simp [find_one, List.find?_cons]
  have hfb : find_one ({ username := u, password := StoredValue.bcrypt p s } :: rest) u =
      some { username := u, password := StoredValue.bcrypt p s } := by
    simp [find_one, List.find?_cons]
  refine ⟨?_, ?_, ?_, ?_⟩
  · simp [ph_verify]
  · simp [checkpw]
  · unfold auth_login_run ts_find_one
    simp [hfa, checkpw]
  · unfold argon_login_run ts_find_one
    simp [hfb, ph_verify]

/-- Claim C9 counterexample: with the user present, the `argon.py` login
script performs two store lookups in one invocation (one in the `if`
condition, one to fetch the password), refuting the at-most-one-lookup bound. -/
theorem argon_login_two_lookups :
    (argon_login_run
        { recs := [{ username := "a", password := StoredValue.argon2 "p" 0 }],
          lookups := 0, writes := 0 } "a" "p").2.lookups = 2 ∧
    ¬ (argon_login_run
        { recs := [{ username := "a", password := StoredValue.argon2 "p" 0 }],
          lookups := 0, writes := 0 } "a" "p").2.lookups ≤ 1 := by
  refine ⟨rfl, ?_⟩
  decide

/-- Claim C9 (amended): every CLI login-script invocation is read-only against
the store (zero writes, record list unchanged) and performs at most two
lookups of the username: one when it is absent, a second to fetch the record
when it is present. -/
theorem login_scripts_read_only (recs : List Record) (u p : String) :
    (argon_login_run { recs := recs, lookups := 0, writes := 0 } u p).2.writes = 0 ∧
    (argon_login_run { recs := recs, lookups := 0, writes := 0 } u p).2.recs = recs ∧
    (argon_login_run { recs := recs, lookups := 0, writes := 0 } u p).2.lookups ≤ 2 ∧
    (auth_login_run { recs := recs, lookups := 0, writes := 0 } u p).2.writes = 0 ∧
    (auth_login_run { recs := recs, lookups := 0, writes := 0 } u p).2.recs = recs ∧
    (auth_login_run { recs := recs, lookups := 0, writes := 0 } u p).2.lookups ≤ 2 := by
  unfold argon_login_run auth_login_run ts_find_one
  cases hf : find_one recs u with
  | none => simp [hf]
  | some r =>
    simp only [hf]
    refine ⟨?_, ?_, ?_, ?_, ?_, ?_⟩ <;>
      rcases ph_verify r.password p with _ | _ | _ <;>
      rcases checkpw p r.password with _ | _ | _ <;>
      simp

/-- Claim C10: whenever the registration path mutates the store, the appended
record carries exactly the argon2 hash of the submitted plaintext in its
password field, and that stored value is not the raw plaintext itself. -/
theorem registration_stores_hash (store : List Record) (u p : String) (s : Nat) :
    (register_button_handler store u p s).2 = store ∨
    ((register_button_handler store u p s).2 =
        store ++ [{ username := u, password := ph_hash p s }] ∧
      ph_hash p s ≠ StoredValue.plain p) := by
  by_cases hp : (p == "") = true
  · left
    unfold register_button_handler
    simp [hp]
  · have hp2 : (p == "") = false := by
      simpa using hp
    cases hf : find_one store u with
    | some r =>
      left
      rw [register_button_handler_of_found p s r hp2 hf]
    | none =>
      right
      refine ⟨?_, ?_⟩
      · rw [register_button_handler_of_fresh p s hp2 hf]
      · exact fun h => StoredValue.noConfusion h

end LMS
